import Mathlib

/-!
Formal model of the generation-validation orchestration engine of the
brand-asset-generator backend (src/backend), together with proofs about
its self-correction loop, batch consistency scoring, slide sequencing,
complete-package aggregation and streaming progress events.

Remote model calls (image generation, validation, scoring, theme text)
are treated as an opaque environment, exactly as the specification
classifies them: each call site is a function of the data the Python
code passes to it, and the loop passes the 1-based iteration number so
that distinct calls may receive distinct answers.
-/

namespace BrandAssetGen

/-- Asset type enumeration from `models/schemas.py` (`AssetType`). -/
inductive AssetType where
  | logo
  | social_media
  | presentation
  | email_template
  | marketing
deriving DecidableEq, Repr, Inhabited

/-- Truthiness of a Python `Optional[str]`: `None` and `""` are falsy,
every other string is truthy. -/
def pyTruthy : Option String → Bool
  | none => false
  | some s => !s.isEmpty

/-- Python `x or default` on an `Optional[str] x`: the value of `x` when
it is truthy, otherwise `default`. -/
def pyOrElse (o : Option String) (d : String) : String :=
  match o with
  | some s => if s.isEmpty then d else s
  | none => d

/-- Modelled from the spec: the brand guidelines input
(`models/schemas.py BrandGuidelines`).  The three campaign fields
(`campaign_name`, `campaign_goal`, `campaign_message`) are read by
`asset_generator.py` and `main.py` and documented by the spec as
"optional campaign fields (name, goal, message)", but their declarations
are absent from the copy of `schemas.py` in the repository snapshot;
they are modelled here as optional strings following the spec.  All
other fields are exactly the declarations of `schemas.py`. -/
structure BrandGuidelines where
  brand_name : String
  primary_color : String
  secondary_color : String
  accent_color : Option String := none
  primary_font : String
  secondary_font : Option String := none
  brand_tone : String
  target_audience : String
  industry : String
  brand_values : Option String := none
  tagline : Option String := none
  additional_context : Option String := none
  campaign_name : Option String := none
  campaign_goal : Option String := none
  campaign_message : Option String := none
deriving DecidableEq, Repr, Inhabited

/-- Validation verdict for one iteration (`models/schemas.py
ValidationResult`).  Scores are pydantic-constrained to 0..100 and are
therefore modelled as `Nat`. -/
structure ValidationResult where
  passed : Bool
  score : Nat
  issues : List String := []
  critique : String
  regeneration_guidance : Option String := none
deriving DecidableEq, Repr

instance : Inhabited ValidationResult :=
  ⟨{ passed := false, score := 0, critique := "" }⟩

/-- Record of a single iteration of the self-correcting loop
(`models/schemas.py AssetIteration`). -/
structure AssetIteration where
  iteration_number : Nat
  image_data : String
  mime_type : String := "image/png"
  validation : ValidationResult
  status : String
deriving DecidableEq, Repr

instance : Inhabited AssetIteration :=
  ⟨{ iteration_number := 1, image_data := "", validation := default, status := "" }⟩

/-- Brand consistency score breakdown (`models/schemas.py
ConsistencyScore`).  All six scores are pydantic-constrained to 0..100,
hence `Nat`. -/
structure ConsistencyScore where
  overall_score : Nat
  color_adherence : Nat
  typography_compliance : Nat
  tone_alignment : Nat
  layout_quality : Nat
  brand_recognition : Nat
  explanation : String
  strengths : List String := []
  improvements : List String := []
deriving DecidableEq, Repr, Inhabited

/-- One generated asset (`models/schemas.py GeneratedAsset`).  The
defaults of the three self-correction fields are the pydantic field
defaults (`iteration_count=1`, `iteration_history=[]`,
`self_corrected=False`); the re-scoring copy in
`generate_complete_package` relies on them. -/
structure GeneratedAsset where
  asset_type : AssetType
  asset_name : String
  image_data : String
  mime_type : String := "image/png"
  width : Nat
  height : Nat
  description : Option String := none
  consistency_score : Option ConsistencyScore := none
  iteration_count : Nat := 1
  iteration_history : List AssetIteration := []
  self_corrected : Bool := false
deriving DecidableEq, Repr

instance : Inhabited GeneratedAsset :=
  ⟨{ asset_type := AssetType.logo, asset_name := "", image_data := "",
     width := 0, height := 0 }⟩

/-- Aggregate consistency score (`models/schemas.py
BatchConsistencyScore`). -/
structure BatchConsistencyScore where
  overall_score : Nat
  color_adherence : Nat
  typography_compliance : Nat
  tone_alignment : Nat
  layout_quality : Nat
  brand_recognition : Nat
  summary : String
  top_performers : List String := []
  needs_attention : List String := []
deriving DecidableEq, Repr

/-- Modelled from the spec: the campaign context
(`CampaignContext`) returned with a complete package when campaign
fields are present.  Its declaration is absent from the copy of
`schemas.py` in the repository snapshot, but `asset_generator.py`
imports and constructs it with exactly these five fields
(`_build_campaign_context`), matching the spec's data model. -/
structure CampaignContext where
  campaign_name : String
  campaign_goal : String
  campaign_message : String
  unified_theme : String
  deployment_checklist : List String
deriving DecidableEq, Repr

/-- Modelled from the spec: the asset package
(`models/schemas.py AssetPackage`).  All fields but `campaign` are the
declarations of `schemas.py`; the `campaign` field is absent from the
snapshot's `schemas.py` but is passed by `generate_complete_package`
and documented by the spec ("optional campaign context"). -/
structure AssetPackage where
  brand_name : String
  assets : List GeneratedAsset
  brand_analysis : String
  generation_notes : Option String := none
  batch_score : Option BatchConsistencyScore := none
  campaign : Option CampaignContext := none
deriving DecidableEq, Repr

/-- Configuration constant from `asset_generator.py`. -/
def MAX_ITERATIONS : Nat := 3

/-- Configuration constant from `asset_generator.py` (enforced by the
model gateway's verdict, not recomputed locally). -/
def VALIDATION_THRESHOLD : Nat := 70

/-- Standard base64 alphabet used by Python's `base64.b64encode`. -/
def base64Alphabet : List Char :=
  "ABCDEFGHIJKLMNOPQRSTUVWXYZabcdefghijklmnopqrstuvwxyz0123456789+/".toList

/-- The base64 digit for a 6-bit value. -/
def base64Digit (n : Nat) : Char := base64Alphabet.getD n 'A'

/-- Base64-encode a byte list, chunkwise, with `=` padding, exactly as
`base64.b64encode` does. -/
def b64Chunks : List Nat → List Char
  | [] => []
  | [b1] =>
      [base64Digit (b1 / 4), base64Digit (b1 % 4 * 16), '=', '=']
  | [b1, b2] =>
      [base64Digit (b1 / 4), base64Digit (b1 % 4 * 16 + b2 / 16),
       base64Digit (b2 % 16 * 4), '=']
  | b1 :: b2 :: b3 :: rest =>
      base64Digit (b1 / 4) :: base64Digit (b1 % 4 * 16 + b2 / 16) ::
        base64Digit (b2 % 16 * 4 + b3 / 64) :: base64Digit (b3 % 64) ::
          b64Chunks rest

/-- Python's `base64.b64encode(bytes).decode('utf-8')` on a byte list. -/
def b64encode (bytes : List Nat) : String := String.mk (b64Chunks bytes)

/-- The per-dimension score of an asset, as read by
`_compute_batch_score` (`a.consistency_score.<dimension>`); the source
only evaluates it on assets whose `consistency_score` is present,
because it filters on that first. -/
def scoreOf (f : ConsistencyScore → Nat) (a : GeneratedAsset) : Nat :=
  match a.consistency_score with
  | some s => f s
  | none => 0

/-- `AssetGenerator._compute_batch_score` (asset_generator.py lines
110-189): all-zero result for an empty list, neutral 75 fallback when
no asset carries a score, otherwise integer-floored means per
dimension (`//` on nonnegative ints), top performers (overall ≥ 85) and
needs-attention (overall < 70) capped at 3 in encounter order, and a
summary sentence banded by the mean overall score. -/
def computeBatchScore (assets : List GeneratedAsset) : BatchConsistencyScore :=
  if assets.isEmpty then
    { overall_score := 0, color_adherence := 0, typography_compliance := 0,
      tone_alignment := 0, layout_quality := 0, brand_recognition := 0,
      summary := "No assets generated.", top_performers := [], needs_attention := [] }
  else
    let scored := assets.filter fun a => a.consistency_score.isSome
    if scored.isEmpty then
      { overall_score := 75, color_adherence := 75, typography_compliance := 75,
        tone_alignment := 75, layout_quality := 75, brand_recognition := 75,
        summary := "Assets generated successfully.", top_performers := [], needs_attention := [] }
    else
      let n := scored.length
      let avg_overall := (scored.map (scoreOf (·.overall_score))).sum / n
      let avg_color := (scored.map (scoreOf (·.color_adherence))).sum / n
      let avg_typo := (scored.map (scoreOf (·.typography_compliance))).sum / n
      let avg_tone := (scored.map (scoreOf (·.tone_alignment))).sum / n
      let avg_layout := (scored.map (scoreOf (·.layout_quality))).sum / n
      let avg_brand := (scored.map (scoreOf (·.brand_recognition))).sum / n
      let top_performers :=
        ((scored.filter fun a => 85 ≤ scoreOf (·.overall_score) a).map (·.asset_name)).take 3
      let needs_attention :=
        ((scored.filter fun a => scoreOf (·.overall_score) a < 70).map (·.asset_name)).take 3
      let summary :=
        if 85 ≤ avg_overall then
          "Excellent brand consistency across " ++ toString n ++
            " assets. The visual identity is strong and cohesive."
        else if 75 ≤ avg_overall then
          "Good brand consistency across " ++ toString n ++
            " assets. Minor refinements could enhance cohesion."
        else if 65 ≤ avg_overall then
          "Moderate brand consistency across " ++ toString n ++
            " assets. Some assets may benefit from revision."
        else
          "Brand consistency needs improvement across " ++ toString n ++
            " assets. Review recommended."
      { overall_score := avg_overall, color_adherence := avg_color,
        typography_compliance := avg_typo, tone_alignment := avg_tone,
        layout_quality := avg_layout, brand_recognition := avg_brand,
        summary := summary, top_performers := top_performers,
        needs_attention := needs_attention }

/-- `AssetGenerator._get_slide_sequence` (asset_generator.py lines
513-539): for `count ≤ 3` the fixed triple truncated to `count`;
otherwise "title", then `count - 2` middle slides cycling through the
four content types with a "section" inserted at every positive index
divisible by 4, then "closing", truncated to `count`. -/
def getSlideSequence (count : Nat) : List String :=
  if count ≤ 3 then
    ["title", "content", "closing"].take count
  else
    let content_types := ["content", "two_column", "image_focus", "section"]
    let remaining := count - 2
    let middle := (List.range remaining).map fun i =>
      if i % 4 == 0 && decide (0 < i) then "section"
      else content_types.getD (i % content_types.length) ""
    (["title"] ++ middle ++ ["closing"]).take count

/-- Outcome of one `gemini.generate_image` call, as observed by the
self-correction loop: either an exception (its message) or image bytes
with a MIME type. -/
inductive GenOutcome where
  | err (msg : String)
  | ok (imageBytes : List Nat) (mimeType : String)
deriving DecidableEq, Repr

/-- The JSON dictionary returned by `gemini.validate_and_critique`
after parsing: any key may be absent, which is what the loop's
`dict.get(key, default)` reads compensate for.  The service's own
parse-failure fallback (gemini_service.py lines 223-231) is the special
case in which every field is present with the fixed default values. -/
structure ValidationJson where
  passed : Option Bool := none
  score : Option Nat := none
  issues : Option (List String) := none
  critique : Option String := none
  regeneration_guidance : Option String := none
deriving DecidableEq, Repr

/-- The model gateway as seen by one run of the self-correction loop.
Calls are strictly sequential, one per iteration, so each call site
receives the 1-based iteration number in addition to the arguments the
Python code passes; the brand guidelines, asset type and description
are fixed for the whole run and are absorbed into the environment. -/
structure GeminiEnv where
  generate_image : Nat → String → String → GenOutcome
  validate_and_critique : Nat → List Nat → String → Option (List String) → ValidationJson

/-- Mutable local state of `_generate_with_self_correction`
(asset_generator.py lines 224-232): the iteration history, the issues
carried from the previous round, the last obtained image payload and
MIME type, and the current (possibly augmented) style guidance. -/
structure LoopState where
  iteration_history : List AssetIteration
  previous_issues : List String
  final_image_data : List Nat
  final_mime_type : String
  current_style : String
deriving DecidableEq, Repr

/-- Initial loop state (asset_generator.py lines 225-232). -/
def selfCorrectInit (style_guidance : String) : LoopState :=
  { iteration_history := [], previous_issues := [],
    final_image_data := [], final_mime_type := "image/png",
    current_style := style_guidance }

/-- The must-fix style block prepended from the previous issues
(asset_generator.py lines 238-245). -/
def issueBlock (style_guidance : String) (issues : List String) : String :=
  style_guidance ++
    "\n\nCRITICAL - Previous version had these issues that MUST be fixed:\n" ++
    String.intercalate "\n" (issues.map fun issue => "- " ++ issue) ++
    "\n\nApply these specific corrections in this version."

/-- The body of the `for iteration_num in range(1, MAX_ITERATIONS + 1)`
loop of `_generate_with_self_correction` (asset_generator.py lines
234-324), as a fold: `fuel` counts the remaining iterations, `n` is
`iteration_num`.  Generation failures append a synthetic `failed`
record and continue; successful generations are validated, recorded
with the status of lines 293-296, and the loop breaks when the verdict
passed. -/
def selfCorrectLoop (env : GeminiEnv) (prompt style_guidance : String) :
    Nat → Nat → LoopState → LoopState
  | 0, _, st => st
  | fuel + 1, n, st =>
    let style1 :=
      if st.previous_issues ≠ [] ∧ 1 < n then issueBlock style_guidance st.previous_issues
      else st.current_style
    match env.generate_image n prompt style1 with
    | GenOutcome.err e =>
        let st' : LoopState :=
          { st with
            current_style := style1,
            iteration_history := st.iteration_history ++
              [{ iteration_number := n, image_data := "", mime_type := "image/png",
                 validation :=
                   { passed := false, score := 0,
                     issues := ["Generation failed: " ++ e],
                     critique := "Asset generation failed.",
                     regeneration_guidance := some "Retry generation with adjusted parameters." },
                 status := "failed" }] }
        selfCorrectLoop env prompt style_guidance fuel (n + 1) st'
    | GenOutcome.ok image_bytes mime_type =>
        let v := env.validate_and_critique n image_bytes mime_type
          (if 1 < n then some st.previous_issues else none)
        let passed := v.passed.getD true
        let score := v.score.getD 75
        let issues := v.issues.getD []
        let critique := v.critique.getD "Asset validated."
        let regen_guidance := v.regeneration_guidance
        let status :=
          if passed || n == MAX_ITERATIONS then
            if passed then "final" else "passed"
          else "failed"
        let st' : LoopState :=
          { st with
            current_style := style1,
            final_image_data := image_bytes,
            final_mime_type := mime_type,
            iteration_history := st.iteration_history ++
              [{ iteration_number := n, image_data := b64encode image_bytes,
                 mime_type := mime_type,
                 validation :=
                   { passed := passed, score := score, issues := issues,
                     critique := critique, regeneration_guidance := regen_guidance },
                 status := status }] }
        if passed then st'
        else
          let previous_issues1 := issues ++
            (match regen_guidance with
             | some g => if g.isEmpty then [] else ["Guidance: " ++ g]
             | none => [])
          selfCorrectLoop env prompt style_guidance fuel (n + 1)
            { st' with previous_issues := previous_issues1 }

/-- The whole loop of `_generate_with_self_correction`: iterations
1 to `MAX_ITERATIONS` starting from the initial state. -/
def runSelfCorrection (env : GeminiEnv) (prompt style_guidance : String) : LoopState :=
  selfCorrectLoop env prompt style_guidance MAX_ITERATIONS 1 (selfCorrectInit style_guidance)

/-- `AssetGenerator._generate_with_self_correction` (asset_generator.py
lines 191-340): run the loop and build the `GeneratedAsset` from the
last obtained image, with `iteration_count = len(iteration_history)`
and `self_corrected = (len(iteration_history) > 1)`. -/
def generateWithSelfCorrection (env : GeminiEnv) (prompt : String)
    (_gl : BrandGuidelines) (asset_type : AssetType)
    (asset_name description : String) (width height : Nat)
    (style_guidance : String) : GeneratedAsset :=
  let st := runSelfCorrection env prompt style_guidance
  { asset_type := asset_type, asset_name := asset_name,
    image_data := b64encode st.final_image_data,
    mime_type := st.final_mime_type,
    width := width, height := height,
    description := some description,
    consistency_score := none,
    iteration_count := st.iteration_history.length,
    iteration_history := st.iteration_history,
    self_corrected := decide (1 < st.iteration_history.length) }

/-- `AssetGenerator._score_asset` (asset_generator.py lines 73-108)
applied to the outcome of the remote scoring call: the parsed
`ConsistencyScore` on success, the fixed neutral 75 fallback when the
call or its validation raised. -/
def scoreAssetResult (r : Except String ConsistencyScore) : ConsistencyScore :=
  match r with
  | Except.ok s => s
  | Except.error _ =>
      { overall_score := 75, color_adherence := 75, typography_compliance := 75,
        tone_alignment := 75, layout_quality := 75, brand_recognition := 75,
        explanation := "Asset scored with default values due to evaluation error.",
        strengths := ["Generated successfully"],
        improvements := ["Manual review recommended"] }

/-- The re-scored copy built per asset in `generate_complete_package`
(asset_generator.py lines 808-817): only the eight listed fields are
passed, so `iteration_count`, `iteration_history` and `self_corrected`
take the pydantic defaults of `GeneratedAsset`. -/
def rescoreAsset (asset : GeneratedAsset) (score : ConsistencyScore) : GeneratedAsset :=
  { asset_type := asset.asset_type, asset_name := asset.asset_name,
    image_data := asset.image_data, mime_type := asset.mime_type,
    width := asset.width, height := asset.height,
    description := asset.description,
    consistency_score := some score }

/-- The sequential scoring loop of `generate_complete_package`
(asset_generator.py lines 805-818): one `_score_asset` call per asset,
in list order; `scoreEnv i` is the outcome of the `i`-th call. -/
def rescoreAll (scoreEnv : Nat → Except String ConsistencyScore) :
    Nat → List GeneratedAsset → List GeneratedAsset
  | _, [] => []
  | i, a :: rest =>
      rescoreAsset a (scoreAssetResult (scoreEnv i)) :: rescoreAll scoreEnv (i + 1) rest

/-- Asset collection from the gathered per-category results
(asset_generator.py lines 796-802): packages contribute their assets in
task order, exceptions contribute nothing. -/
def collectAssets (results : List (Except String AssetPackage)) : List GeneratedAsset :=
  (results.map fun r =>
    match r with
    | Except.ok p => p.assets
    | Except.error _ => []).flatten

/-- Note collection from the gathered per-category results
(asset_generator.py lines 796-802): an `Error: <message>` note per
exception, and each successful package's `generation_notes` when
truthy, in task order. -/
def collectNotes (results : List (Except String AssetPackage)) : List String :=
  (results.map fun r =>
    match r with
    | Except.error e => ["Error: " ++ e]
    | Except.ok p => if pyTruthy p.generation_notes then [pyOrElse p.generation_notes ""] else []).flatten

/-- `AssetGenerator._generate_campaign_theme` (asset_generator.py lines
896-936): the remote text stripped of surrounding whitespace and of
all `**` and `*` markers, or the formatted fallback sentence when the
call raised. -/
def generateCampaignTheme (themeEnv : Except String String)
    (gl : BrandGuidelines) (asset_count : Nat) : String :=
  match themeEnv with
  | Except.ok text => ((text.trim).replace "**" "").replace "*" ""
  | Except.error _ =>
      "A cohesive " ++ gl.brand_tone.toLower ++ " campaign featuring " ++
        toString asset_count ++ " coordinated assets designed to " ++
        pyOrElse gl.campaign_goal "build brand awareness" ++ "."

/-- The deployment checklist item for one asset type
(`asset_type_map`, asset_generator.py lines 867-873); the map covers
every `AssetType` value, so the `if asset_type in asset_type_map`
guard of line 878 never fails. -/
def assetTypeChecklistItem : AssetType → String
  | AssetType.logo => "Upload logo to website header, favicon, and social profiles"
  | AssetType.social_media => "Schedule social media posts across platforms"
  | AssetType.presentation => "Use presentation deck for investor/client meetings"
  | AssetType.email_template => "Import email templates into email marketing platform"
  | AssetType.marketing => "Deploy marketing materials to digital ad platforms and print"

/-- The three campaign-specific checklist items always appended
(asset_generator.py lines 882-886); the first interpolates the
resolved campaign message between single quotes. -/
def genericChecklistItems (campaign_message : String) : List String :=
  ["Ensure all assets prominently feature: " ++ String.singleton (Char.ofNat 39) ++
     campaign_message ++ String.singleton (Char.ofNat 39),
   "Review all assets for brand consistency before launch",
   "Set up tracking/analytics for campaign performance"]

/-- `AssetGenerator._build_campaign_context` (asset_generator.py lines
840-894).  Python iterates the *set* of asset types present; the set
is modelled by `List.dedup` of the types in asset order — the
properties proved below (membership, distinctness, count) do not
depend on the iteration order of the set. -/
def buildCampaignContext (themeEnv : Except String String)
    (gl : BrandGuidelines) (assets : List GeneratedAsset) : CampaignContext :=
  let campaign_name := pyOrElse gl.campaign_name "Brand Campaign"
  let campaign_goal := pyOrElse gl.campaign_goal "Brand awareness"
  let campaign_message := pyOrElse gl.campaign_message (pyOrElse gl.tagline "")
  let unified_theme := generateCampaignTheme themeEnv gl assets.length
  let asset_types_present := (assets.map fun a => a.asset_type).dedup
  let deployment_checklist :=
    asset_types_present.map assetTypeChecklistItem ++ genericChecklistItems campaign_message
  { campaign_name := campaign_name, campaign_goal := campaign_goal,
    campaign_message := campaign_message, unified_theme := unified_theme,
    deployment_checklist := deployment_checklist }

/-- The aggregation phase of `AssetGenerator.generate_complete_package`
(asset_generator.py lines 789-838), after `asyncio.gather(...,
return_exceptions=True)`: `results` holds, in task order, each
category task's package or exception — the gather never propagates a
task exception, which is why this function is total in `results`.
All collected assets are re-scored sequentially, a batch score is
computed, and a campaign context is attached iff some campaign field
is truthy. -/
def generateCompletePackage (scoreEnv : Nat → Except String ConsistencyScore)
    (themeEnv : Except String String) (gl : BrandGuidelines)
    (brand_analysis : String)
    (results : List (Except String AssetPackage)) : AssetPackage :=
  let all_assets := collectAssets results
  let generation_notes := collectNotes results
  let scored_assets := rescoreAll scoreEnv 0 all_assets
  let batch_score := computeBatchScore scored_assets
  let campaign_context :=
    if pyTruthy gl.campaign_name || pyTruthy gl.campaign_goal || pyTruthy gl.campaign_message then
      some (buildCampaignContext themeEnv gl scored_assets)
    else none
  { brand_name := gl.brand_name, assets := scored_assets,
    brand_analysis := brand_analysis,
    generation_notes := some (String.intercalate " | " generation_notes),
    batch_score := some batch_score,
    campaign := campaign_context }

/-- One server-sent progress event of the streaming endpoint
(main.py `event_generator`), restricted to the fields the percentage
contract concerns. -/
structure ProgressEvent where
  step : Nat
  total : Nat
  percentage : Nat
  message : String
deriving DecidableEq, Repr

instance : Inhabited ProgressEvent :=
  ⟨{ step := 0, total := 0, percentage := 0, message := "" }⟩

/-- The enabled-category list built from the include flags
(main.py lines 417-427), with each category's progress message. -/
def enabledCategories (include_logos include_social include_presentation
    include_email include_marketing : Bool) : List (String × String) :=
  (if include_logos then [("logos", "Creating logo variations")] else []) ++
  (if include_social then [("social", "Generating social media templates")] else []) ++
  (if include_presentation then [("presentation", "Designing presentation slides")] else []) ++
  (if include_email then [("email", "Crafting email templates")] else []) ++
  (if include_marketing then [("marketing", "Building marketing materials")] else [])

/-- The per-category progress events (main.py lines 444-449): for the
category at 0-based index `idx`, `completed_steps = 1 + idx` (brand
analysis plus the categories already finished) and the percentage is
`int((completed_steps / total_steps) * 100)`; for the step counts
reachable here (`total_steps ≤ 6`) the double-precision expression
coincides with exact floor division, modelled as `Nat` division. -/
def categoryEvents (total_steps : Nat) : Nat → List (String × String) → List ProgressEvent
  | _, [] => []
  | idx, c :: rest =>
      { step := idx + 2, total := total_steps,
        percentage := (1 + idx) * 100 / total_steps, message := c.2 } ::
        categoryEvents total_steps (idx + 1) rest

/-- All progress events emitted by `event_generator` (main.py lines
414-498), in emission order: the initial brand-analysis event with
percentage 0 (line 433), one event per category (lines 444-449), the
scoring event with hardcoded percentage 90 and total `total_steps + 1`
(line 467), and the finalization event with hardcoded percentage 100
(line 498). -/
def progressEvents (categories : List (String × String)) : List ProgressEvent :=
  let total_steps := categories.length + 1
  ({ step := 1, total := total_steps, percentage := 0,
     message := "Analyzing brand identity" } ::
    categoryEvents total_steps 0 categories) ++
  [{ step := total_steps, total := total_steps + 1, percentage := 90,
     message := "Scoring brand consistency" },
   { step := total_steps + 1, total := total_steps + 1, percentage := 100,
     message := "Finalizing assets" }]

/-- The number of fully completed steps at the moment each event of
`progressEvents` is emitted (before the step the event announces
starts): 0 before brand analysis, `1 + idx` before category `idx`,
`1 + |categories|` before scoring, `2 + |categories|` before
finalization.  This is the reference quantity of the spec's percentage
contract, not a quantity the source computes for the last two events. -/
def completedStepsBefore (categories : List (String × String)) : List Nat :=
  0 :: (List.range categories.length).map (fun idx => 1 + idx) ++
    [1 + categories.length, 2 + categories.length]

/-- A consistency score whose six dimensions all equal `v`, used as a
concrete scoring outcome in witnesses. -/
def mkScore (v : Nat) : ConsistencyScore :=
  { overall_score := v, color_adherence := v, typography_compliance := v,
    tone_alignment := v, layout_quality := v, brand_recognition := v,
    explanation := "", strengths := [], improvements := [] }

/-- A concrete scored asset used in witnesses. -/
def mkScoredAsset (nm : String) (v : Nat) : GeneratedAsset :=
  { asset_type := AssetType.logo, asset_name := nm, image_data := "",
    mime_type := "image/png", width := 100, height := 100,
    description := none, consistency_score := some (mkScore v) }

/-- Three concrete assets scored 90, 80 and 70 overall. -/
def threeScored : List GeneratedAsset :=
  [mkScoredAsset "a" 90, mkScoredAsset "b" 80, mkScoredAsset "c" 70]

/-- A gateway where image generation always succeeds with a one-byte
image and the validation verdict is always an explicit failure. -/
def envGenOkValFail : GeminiEnv :=
  { generate_image := fun _ _ _ => GenOutcome.ok [1] "image/png",
    validate_and_critique := fun _ _ _ _ =>
      { passed := some false, score := some 40,
        issues := some ["Primary color missing"],
        critique := some "Does not meet guidelines.",
        regeneration_guidance := some "Use the primary color." } }

/-- A gateway where image generation always succeeds and the validation
call returns a JSON object with no recognised keys at all. -/
def envGenOkNoVerdict : GeminiEnv :=
  { generate_image := fun _ _ _ => GenOutcome.ok [1] "image/png",
    validate_and_critique := fun _ _ _ _ => {} }

/-- A gateway where every image-generation attempt raises. -/
def envAllErr : GeminiEnv :=
  { generate_image := fun _ _ _ => GenOutcome.err "boom",
    validate_and_critique := fun _ _ _ _ => {} }

/-- Concrete brand guidelines without campaign fields. -/
def glBasic : BrandGuidelines :=
  { brand_name := "Acme", primary_color := "#112233", secondary_color := "#445566",
    primary_font := "Inter", brand_tone := "Professional",
    target_audience := "Developers", industry := "Software" }

/-- Concrete brand guidelines with a campaign name set. -/
def glCampaign : BrandGuidelines :=
  { glBasic with campaign_name := some "Spring Launch",
                 campaign_goal := some "Grow signups",
                 campaign_message := some "Ship faster" }

/-- A score environment whose every call raises. -/
def scoreEnvErr : Nat → Except String ConsistencyScore :=
  fun _ => Except.error "scoring unavailable"

/-- A theme environment whose call raises. -/
def themeEnvErr : Except String String := Except.error "theme unavailable"

/-- A concrete asset produced by the self-correction loop: the first
generation succeeds and the empty verdict is accepted, so the history
has exactly one record. -/
def assetOneIteration : GeneratedAsset :=
  generateWithSelfCorrection envGenOkNoVerdict "prompt" glBasic AssetType.logo
    "logo_primary" "Primary logo" 1024 1024 "style"

/-- A concrete single-category package holding `assetOneIteration`. -/
def pkgOneCategory : AssetPackage :=
  { brand_name := "Acme", assets := [assetOneIteration], brand_analysis := "analysis",
    generation_notes := some "Generated 1 logo variations with style: default" }

/-- The five enabled categories of a full streaming request. -/
def allFiveCategories : List (String × String) :=
  enabledCategories true true true true true

end BrandAssetGen

namespace BrandAssetGen

/-- C8: the slide-sequence function returns exactly
`["title", "content", "closing"]` for count 3, exactly `["title"]` for
count 1, and for count 6 a list of length 6 that starts with "title"
and ends with "closing". -/
theorem slide_sequence_spec :
    getSlideSequence 3 = ["title", "content", "closing"] ∧
    getSlideSequence 1 = ["title"] ∧
    (getSlideSequence 6).length = 6 ∧
    (getSlideSequence 6).head? = some "title" ∧
    (getSlideSequence 6).getLast? = some "closing" := by
  decide

/-- C9: on a non-empty list of assets that all carry a consistency
score, every dimension of the batch score is the floored mean of that
dimension over the assets; in particular overall scores 90, 80, 70
yield a batch overall score of 80 and the "good" (≥ 75) band summary. -/
theorem batch_score_floored_means :
    (∀ assets : List GeneratedAsset, assets ≠ [] →
      (∀ a ∈ assets, a.consistency_score.isSome = true) →
      (computeBatchScore assets).overall_score =
          (assets.map (scoreOf (·.overall_score))).sum / assets.length ∧
        (computeBatchScore assets).color_adherence =
          (assets.map (scoreOf (·.color_adherence))).sum / assets.length ∧
        (computeBatchScore assets).typography_compliance =
          (assets.map (scoreOf (·.typography_compliance))).sum / assets.length ∧
        (computeBatchScore assets).tone_alignment =
          (assets.map (scoreOf (·.tone_alignment))).sum / assets.length ∧
        (computeBatchScore assets).layout_quality =
          (assets.map (scoreOf (·.layout_quality))).sum / assets.length ∧
        (computeBatchScore assets).brand_recognition =
          (assets.map (scoreOf (·.brand_recognition))).sum / assets.length) ∧
    (computeBatchScore threeScored).overall_score = 80 ∧
    (computeBatchScore threeScored).summary =
      "Good brand consistency across 3 assets. Minor refinements could enhance cohesion." := by
  refine ⟨?_, by decide, by decide⟩
  intro assets h1 h2
  have hne : assets.isEmpty = false := by
    cases assets with
    | nil => exact absurd rfl h1
    | cons a l => rfl
  have hfil : assets.filter (fun a => a.consistency_score.isSome) = assets :=
    List.filter_eq_self.mpr h2
  simp [computeBatchScore, hne, hfil]

/-- Witness for `batch_score_floored_means` at the concrete three-asset
list. -/
theorem batch_score_floored_means_witness :
    threeScored ≠ [] ∧
    (computeBatchScore threeScored).overall_score =
      (threeScored.map (scoreOf (·.overall_score))).sum / threeScored.length := by
  refine ⟨by decide, ?_⟩
  exact (batch_score_floored_means.1 threeScored (by decide) (by decide)).1

/-- Each loop pass appends at most one iteration record, so the history
grows by at most `fuel` records. -/
theorem selfCorrectLoop_length_le (env : GeminiEnv) (prompt style_guidance : String) :
    ∀ fuel n st, (selfCorrectLoop env prompt style_guidance fuel n st).iteration_history.length ≤
      st.iteration_history.length + fuel := by
  intro fuel
  induction fuel with
  | zero => intro n st; simp [selfCorrectLoop]
  | succ fuel ih =>
    intro n st
    simp only [selfCorrectLoop]
    rcases hgen : env.generate_image n prompt
        (if st.previous_issues ≠ [] ∧ 1 < n then issueBlock style_guidance st.previous_issues
         else st.current_style) with e | ⟨img, mime⟩
    · refine le_trans (ih (n + 1) _) ?_
      dsimp only
      simp only [List.length_append, List.length_cons, List.length_nil]
      omega
    · dsimp only
      rcases hp : (env.validate_and_critique n img mime
          (if 1 < n then some st.previous_issues else none)).passed.getD true
      · rw [if_neg (by simp [hp])]
        refine le_trans (ih (n + 1) _) ?_
        dsimp only
        simp only [List.length_append, List.length_cons, List.length_nil]
        omega
      · rw [if_pos rfl]
        dsimp only
        simp only [List.length_append, List.length_cons, List.length_nil]
        omega

/-- Every record that is not the last one of the final history carries
a failing verdict: the loop only continues past a record when that
record's verdict did not pass. -/
theorem selfCorrectLoop_dropLast_not_passed (env : GeminiEnv) (prompt style_guidance : String) :
    ∀ fuel n st, (∀ r ∈ st.iteration_history, r.validation.passed = false) →
      ∀ r ∈ (selfCorrectLoop env prompt style_guidance fuel n st).iteration_history.dropLast,
        r.validation.passed = false := by
  intro fuel
  induction fuel with
  | zero =>
    intro n st hinv r hr
    simp only [selfCorrectLoop] at hr
    exact hinv r (List.dropLast_sublist _ |>.subset hr)
  | succ fuel ih =>
    intro n st hinv
    simp only [selfCorrectLoop]
    rcases hgen : env.generate_image n prompt
        (if st.previous_issues ≠ [] ∧ 1 < n then issueBlock style_guidance st.previous_issues
         else st.current_style) with e | ⟨img, mime⟩
    · apply ih
      intro r hr
      dsimp only at hr
      simp only [List.mem_append, List.mem_singleton] at hr
      rcases hr with h | h
      · exact hinv r h
      · subst h
        rfl
    · dsimp only
      rcases hp : (env.validate_and_critique n img mime
          (if 1 < n then some st.previous_issues else none)).passed.getD true
      · rw [if_neg (by simp [hp])]
        apply ih
        intro r hr
        dsimp only at hr
        simp only [List.mem_append, List.mem_singleton] at hr
        rcases hr with h | h
        · exact hinv r h
        · subst h
          rfl
      · rw [if_pos rfl]
        intro r hr
        dsimp only at hr
        simp only [List.dropLast_concat] at hr
        exact hinv r hr

/-- C5: one run of the self-correction loop produces at most
`MAX_ITERATIONS` (3) iteration records, and every record other than the
last one has a failing verdict — so the loop stops at the first passed
verdict and performs no generation or validation call after it (each
record corresponds to exactly one generation attempt). -/
theorem self_correction_bounded_and_stops (env : GeminiEnv) (prompt style_guidance : String) :
    (runSelfCorrection env prompt style_guidance).iteration_history.length ≤ MAX_ITERATIONS ∧
    ∀ r ∈ (runSelfCorrection env prompt style_guidance).iteration_history.dropLast,
      r.validation.passed = false := by
  constructor
  · have h := selfCorrectLoop_length_le env prompt style_guidance MAX_ITERATIONS 1
      (selfCorrectInit style_guidance)
    simpa [selfCorrectInit] using h
  · exact selfCorrectLoop_dropLast_not_passed env prompt style_guidance MAX_ITERATIONS 1
      (selfCorrectInit style_guidance) (by simp [selfCorrectInit])

/-- Witness for `self_correction_bounded_and_stops` on a gateway whose
verdicts always fail: three records, the first two with failing
verdicts. -/
theorem self_correction_bounded_and_stops_witness :
    (runSelfCorrection envGenOkValFail "p" "s").iteration_history.length = 3 ∧
    ((runSelfCorrection envGenOkValFail "p" "s").iteration_history.dropLast.getD 0
      default).validation.passed = false := by
  obtain ⟨-, h2⟩ := self_correction_bounded_and_stops envGenOkValFail "p" "s"
  refine ⟨by decide, h2 _ ?_⟩
  decide

/-- C1 counterexample: on a run whose three verdicts all fail, the
record of the last allowed iteration (iteration 3, generation
successful, `passed = false`) has status "passed", not "final" as the
claim states. -/
theorem status_passed_on_last_failed_iteration :
    ((runSelfCorrection envGenOkValFail "p" "s").iteration_history.getD 2
        default).iteration_number = MAX_ITERATIONS ∧
    ((runSelfCorrection envGenOkValFail "p" "s").iteration_history.getD 2
        default).validation.passed = false ∧
    ((runSelfCorrection envGenOkValFail "p" "s").iteration_history.getD 2
        default).status = "passed" ∧
    ((runSelfCorrection envGenOkValFail "p" "s").iteration_history.getD 2
        default).status ≠ "final" := by
  decide

/-- C1 (amended): for every iteration record appended after a
successful generation — here: under a gateway whose image generation
never raises — the status is "final" when the verdict passed, "passed"
when the verdict failed on the last allowed iteration
(`MAX_ITERATIONS` = 3), and "failed" otherwise. -/
theorem iteration_status_rule (env : GeminiEnv)
    (gen : Nat → String → String → List Nat × String)
    (henv : ∀ n p s, env.generate_image n p s = GenOutcome.ok (gen n p s).1 (gen n p s).2)
    (prompt style_guidance : String) :
    ∀ r ∈ (runSelfCorrection env prompt style_guidance).iteration_history,
      r.status = if r.validation.passed then "final"
                 else if r.iteration_number == MAX_ITERATIONS then "passed"
                 else "failed" := by
  have key : ∀ fuel n st,
      (∀ r ∈ st.iteration_history,
        r.status = if r.validation.passed then "final"
                   else if r.iteration_number == MAX_ITERATIONS then "passed"
                   else "failed") →
      ∀ r ∈ (selfCorrectLoop env prompt style_guidance fuel n st).iteration_history,
        r.status = if r.validation.passed then "final"
                   else if r.iteration_number == MAX_ITERATIONS then "passed"
                   else "failed" := by
    intro fuel
    induction fuel with
    | zero =>
      intro n st hinv
      simpa [selfCorrectLoop] using hinv
    | succ fuel ih =>
      intro n st hinv
      simp only [selfCorrectLoop, henv]
      rcases hp : (env.validate_and_critique n
          (gen n prompt (if st.previous_issues ≠ [] ∧ 1 < n then
            issueBlock style_guidance st.previous_issues else st.current_style)).1
          (gen n prompt (if st.previous_issues ≠ [] ∧ 1 < n then
            issueBlock style_guidance st.previous_issues else st.current_style)).2
          (if 1 < n then some st.previous_issues else none)).passed.getD true
      · rw [if_neg (by simp [hp])]
        apply ih
        intro r hr
        dsimp only at hr
        simp only [List.mem_append, List.mem_singleton] at hr
        rcases hr with h | h
        · exact hinv r h
        · subst h
          simp [hp]
      · rw [if_pos rfl]
        intro r hr
        dsimp only at hr
        simp only [List.mem_append, List.mem_singleton] at hr
        rcases hr with h | h
        · exact hinv r h
        · subst h
          simp [hp]
  exact key MAX_ITERATIONS 1 (selfCorrectInit style_guidance) (by simp [selfCorrectInit])

/-- Witness for `iteration_status_rule`: on the always-generating,
always-failing gateway, the first record's status is "failed". -/
theorem iteration_status_rule_witness :
    ((runSelfCorrection envGenOkValFail "p" "s").iteration_history.getD 0
      default).status = "failed" := by
  have h := iteration_status_rule envGenOkValFail (fun _ _ _ => ([1], "image/png"))
    (fun _ _ _ => rfl) "p" "s"
  have hm : (runSelfCorrection envGenOkValFail "p" "s").iteration_history.getD 0 default ∈
      (runSelfCorrection envGenOkValFail "p" "s").iteration_history := by decide
  rw [h _ hm]
  decide

/-- When every generation attempt raises, each loop pass appends
exactly one synthetic failed record and never touches the image
payload. -/
theorem selfCorrectLoop_all_err (env : GeminiEnv) (prompt style_guidance : String)
    (errf : Nat → String → String → String)
    (henv : ∀ n p s, env.generate_image n p s = GenOutcome.err (errf n p s)) :
    ∀ fuel n st,
      (selfCorrectLoop env prompt style_guidance fuel n st).final_image_data =
          st.final_image_data ∧
      (selfCorrectLoop env prompt style_guidance fuel n st).iteration_history.length =
          st.iteration_history.length + fuel ∧
      ∀ r ∈ (selfCorrectLoop env prompt style_guidance fuel n st).iteration_history,
        r ∈ st.iteration_history ∨
          (r.status = "failed" ∧ r.validation.score = 0 ∧
            ∃ msg, r.validation.issues = ["Generation failed: " ++ msg]) := by
  intro fuel
  induction fuel with
  | zero =>
    intro n st
    refine ⟨rfl, by simp [selfCorrectLoop], ?_⟩
    intro r hr
    exact Or.inl (by simpa [selfCorrectLoop] using hr)
  | succ fuel ih =>
    intro n st
    simp only [selfCorrectLoop, henv]
    obtain ⟨ih1, ih2, ih3⟩ := ih (n + 1)
      { st with
        current_style :=
          if st.previous_issues ≠ [] ∧ 1 < n then issueBlock style_guidance st.previous_issues
          else st.current_style,
        iteration_history := st.iteration_history ++
          [{ iteration_number := n, image_data := "", mime_type := "image/png",
             validation :=
               { passed := false, score := 0,
                 issues := ["Generation failed: " ++
                   errf n prompt
                     (if st.previous_issues ≠ [] ∧ 1 < n then
                       issueBlock style_guidance st.previous_issues
                      else st.current_style)],
                 critique := "Asset generation failed.",
                 regeneration_guidance := some "Retry generation with adjusted parameters." },
             status := "failed" }] }
    refine ⟨by rw [ih1], ?_, ?_⟩
    · rw [ih2]
      dsimp only
      simp only [List.length_append, List.length_cons, List.length_nil]
      omega
    · intro r hr
      rcases ih3 r hr with h | h
      · dsimp only at h
        simp only [List.mem_append, List.mem_singleton] at h
        rcases h with h | h
        · exact Or.inl h
        · subst h
          exact Or.inr ⟨rfl, rfl, _, rfl⟩
      · exact Or.inr h

/-- C6: when every generation attempt inside the loop raises, the
returned asset has an empty image payload, `iteration_count` equal to
`MAX_ITERATIONS` (3), and every iteration record is in "failed" status
with a synthetic verdict of score 0 whose issue list carries the error
message. -/
theorem all_attempts_fail_asset (env : GeminiEnv)
    (errf : Nat → String → String → String)
    (henv : ∀ n p s, env.generate_image n p s = GenOutcome.err (errf n p s))
    (prompt : String) (gl : BrandGuidelines) (t : AssetType)
    (nm d : String) (w hgt : Nat) (sg : String) :
    (generateWithSelfCorrection env prompt gl t nm d w hgt sg).image_data = "" ∧
    (generateWithSelfCorrection env prompt gl t nm d w hgt sg).iteration_count =
      MAX_ITERATIONS ∧
    ∀ r ∈ (generateWithSelfCorrection env prompt gl t nm d w hgt sg).iteration_history,
      r.status = "failed" ∧ r.validation.score = 0 ∧
        ∃ msg, r.validation.issues = ["Generation failed: " ++ msg] := by
  obtain ⟨h1, h2, h3⟩ := selfCorrectLoop_all_err env prompt sg errf henv MAX_ITERATIONS 1
    (selfCorrectInit sg)
  refine ⟨?_, ?_, ?_⟩
  · show b64encode (runSelfCorrection env prompt sg).final_image_data = ""
    rw [show (runSelfCorrection env prompt sg).final_image_data =
      (selfCorrectInit sg).final_image_data from h1]
    rfl
  · show (runSelfCorrection env prompt sg).iteration_history.length = MAX_ITERATIONS
    rw [show (runSelfCorrection env prompt sg).iteration_history.length =
      (selfCorrectInit sg).iteration_history.length + MAX_ITERATIONS from h2]
    rfl
  · intro r hr
    rcases h3 r hr with h | h
    · simp [selfCorrectInit] at h
    · exact h

/-- Witness for `all_attempts_fail_asset` on the gateway whose every
generation call raises "boom". -/
theorem all_attempts_fail_asset_witness :
    (generateWithSelfCorrection envAllErr "p" glBasic AssetType.logo "n" "d" 1 1 "s").image_data
        = "" ∧
    (generateWithSelfCorrection envAllErr "p" glBasic AssetType.logo "n" "d" 1 1 "s").iteration_count
        = 3 := by
  have h := all_attempts_fail_asset envAllErr (fun _ _ _ => "boom") (fun _ _ _ => rfl)
    "p" glBasic AssetType.logo "n" "d" 1 1 "s"
  exact ⟨h.1, h.2.1⟩

/-- C10: when the first generation succeeds and the validation call
returns a JSON object that omits the "passed" key, the loop treats the
iteration as passed, records it with status "final", stops after this
single iteration, and — when the "score" key is also absent — records
the default score 75. -/
theorem missing_passed_key_accepts (env : GeminiEnv) (prompt style_guidance : String)
    (img : List Nat) (mime : String)
    (hgen : env.generate_image 1 prompt style_guidance = GenOutcome.ok img mime)
    (hpassed : (env.validate_and_critique 1 img mime none).passed = none) :
    (runSelfCorrection env prompt style_guidance).iteration_history.length = 1 ∧
    ((runSelfCorrection env prompt style_guidance).iteration_history.getD 0
      default).status = "final" ∧
    ((runSelfCorrection env prompt style_guidance).iteration_history.getD 0
      default).validation.passed = true ∧
    ((env.validate_and_critique 1 img mime none).score = none →
      ((runSelfCorrection env prompt style_guidance).iteration_history.getD 0
        default).validation.score = 75) := by
  have hstep : runSelfCorrection env prompt style_guidance =
      selfCorrectLoop env prompt style_guidance MAX_ITERATIONS 1 (selfCorrectInit style_guidance) :=
    rfl
  rw [hstep]
  rw [show MAX_ITERATIONS = 2 + 1 from rfl]
  simp only [selfCorrectLoop, selfCorrectInit]
  rw [if_neg (by simp)]
  rw [show (if (1:Nat) < 1 then some ([] : List String) else none) = none from by simp]
  rw [hgen]
  dsimp only
  rw [hpassed]
  simp only [Option.getD_some, Option.getD_none]
  simp only [if_true]
  refine ⟨rfl, rfl, rfl, ?_⟩
  intro hs
  rw [hs]
  rfl

/-- Witness for `missing_passed_key_accepts` on the gateway whose
validation verdict is the empty JSON object. -/
theorem missing_passed_key_accepts_witness :
    (runSelfCorrection envGenOkNoVerdict "p" "s").iteration_history.length = 1 ∧
    ((runSelfCorrection envGenOkNoVerdict "p" "s").iteration_history.getD 0
      default).status = "final" ∧
    ((runSelfCorrection envGenOkNoVerdict "p" "s").iteration_history.getD 0
      default).validation.score = 75 := by
  have h := missing_passed_key_accepts envGenOkNoVerdict "p" "s" [1] "image/png" rfl rfl
  exact ⟨h.1, h.2.1, h.2.2.2 rfl⟩

/-- C2 (amended): assets produced by the self-correction loop satisfy
`iteration_count = len(iteration_history)` and `self_corrected` iff
more than one iteration; the re-scored copies built in
`generate_complete_package` do not inherit these fields — they are
rebuilt with the schema defaults `iteration_count = 1`,
`iteration_history = []` and `self_corrected = false`, so the length
equality fails on every re-scored copy. -/
theorem iteration_count_invariant_and_rescore :
    (∀ (env : GeminiEnv) (prompt : String) (gl : BrandGuidelines) (t : AssetType)
      (nm d : String) (w hgt : Nat) (sg : String),
      (generateWithSelfCorrection env prompt gl t nm d w hgt sg).iteration_count =
        (generateWithSelfCorrection env prompt gl t nm d w hgt sg).iteration_history.length ∧
      ((generateWithSelfCorrection env prompt gl t nm d w hgt sg).self_corrected = true ↔
        1 < (generateWithSelfCorrection env prompt gl t nm d w hgt sg).iteration_count)) ∧
    ∀ (asset : GeneratedAsset) (score : ConsistencyScore),
      (rescoreAsset asset score).iteration_count = 1 ∧
      (rescoreAsset asset score).iteration_history = [] ∧
      (rescoreAsset asset score).self_corrected = false := by
  constructor
  · intro env prompt gl t nm d w hgt sg
    refine ⟨rfl, ?_⟩
    show decide (1 < (runSelfCorrection env prompt sg).iteration_history.length) = true ↔ _
    simp [generateWithSelfCorrection]
  · intro asset score
    exact ⟨rfl, rfl, rfl⟩

/-- C2 counterexample: the re-scored copy of a loop-produced asset, as
assembled into the returned complete package, has `iteration_count = 1`
but an empty `iteration_history`, so the claimed equality fails on an
asset the system returns to the caller. -/
theorem rescored_copy_breaks_iteration_invariant :
    ((generateCompletePackage scoreEnvErr themeEnvErr glBasic "analysis"
        [Except.ok pkgOneCategory]).assets.getD 0 default).iteration_count = 1 ∧
    ((generateCompletePackage scoreEnvErr themeEnvErr glBasic "analysis"
        [Except.ok pkgOneCategory]).assets.getD 0 default).iteration_history.length = 0 ∧
    ((generateCompletePackage scoreEnvErr themeEnvErr glBasic "analysis"
        [Except.ok pkgOneCategory]).assets.getD 0 default).iteration_count ≠
      ((generateCompletePackage scoreEnvErr themeEnvErr glBasic "analysis"
        [Except.ok pkgOneCategory]).assets.getD 0 default).iteration_history.length := by
  decide

/-- Re-scoring a list of assets preserves each asset's name, in
order. -/
theorem rescoreAll_map_name (scoreEnv : Nat → Except String ConsistencyScore) :
    ∀ (l : List GeneratedAsset) (i : Nat),
      (rescoreAll scoreEnv i l).map (fun a => a.asset_name) =
        l.map (fun a => a.asset_name) := by
  intro l
  induction l with
  | nil => intro i; rfl
  | cons a rest ih =>
    intro i
    simp only [rescoreAll, List.map_cons]
    rw [ih (i + 1)]
    rfl

/-- The assets gathered from a results list with one exception between
two runs of successful packages are exactly the successful packages'
assets, in order. -/
theorem collectAssets_split (pre post : List AssetPackage) (msg : String) :
    collectAssets (pre.map Except.ok ++ Except.error msg :: post.map Except.ok) =
      ((pre ++ post).map (fun p => p.assets)).flatten := by
  simp only [collectAssets, List.map_append, List.map_cons, List.map_map,
    List.flatten_append, List.flatten_cons, List.nil_append]
  rw [show ((fun r : Except String AssetPackage =>
      match r with
      | Except.ok p => p.assets
      | Except.error _ => ([] : List GeneratedAsset)) ∘ Except.ok) =
    (fun p : AssetPackage => p.assets) from rfl]

/-- C7: when exactly one category task raises and every other category
task returns its package, the complete-package call still returns a
package whose asset list is exactly the other categories' assets (here
compared by name, which re-scoring preserves), the failure is recorded
as an "Error: ..." note, and the collected notes are joined into the
package's `generation_notes` — the aggregation is total, so no
exception reaches the caller. -/
theorem one_failed_category_isolated (scoreEnv : Nat → Except String ConsistencyScore)
    (themeEnv : Except String String) (gl : BrandGuidelines) (brand_analysis : String)
    (pre post : List AssetPackage) (msg : String) :
    (generateCompletePackage scoreEnv themeEnv gl brand_analysis
        (pre.map Except.ok ++ Except.error msg :: post.map Except.ok)).assets.map
        (fun a => a.asset_name) =
      (((pre ++ post).map (fun p => p.assets)).flatten).map (fun a => a.asset_name) ∧
    ("Error: " ++ msg) ∈
      collectNotes (pre.map Except.ok ++ Except.error msg :: post.map Except.ok) ∧
    (generateCompletePackage scoreEnv themeEnv gl brand_analysis
        (pre.map Except.ok ++ Except.error msg :: post.map Except.ok)).generation_notes =
      some (String.intercalate " | "
        (collectNotes (pre.map Except.ok ++ Except.error msg :: post.map Except.ok))) := by
  refine ⟨?_, ?_, rfl⟩
  · show (rescoreAll scoreEnv 0
        (collectAssets (pre.map Except.ok ++ Except.error msg :: post.map Except.ok))).map
        (fun a => a.asset_name) = _
    rw [rescoreAll_map_name, collectAssets_split]
  · simp [collectNotes]

/-- C3: whenever some campaign field of the guidelines is truthy, the
returned complete package carries a campaign context whose deployment
checklist is one item per distinct asset type present in the package's
asset list followed by the three generic campaign items. -/
theorem campaign_checklist_structure (scoreEnv : Nat → Except String ConsistencyScore)
    (themeEnv : Except String String) (gl : BrandGuidelines) (brand_analysis : String)
    (results : List (Except String AssetPackage))
    (h : pyTruthy gl.campaign_name = true ∨ pyTruthy gl.campaign_goal = true ∨
      pyTruthy gl.campaign_message = true) :
    ∃ ctx types,
      (generateCompletePackage scoreEnv themeEnv gl brand_analysis results).campaign =
        some ctx ∧
      types = ((generateCompletePackage scoreEnv themeEnv gl brand_analysis
        results).assets.map (fun a => a.asset_type)).dedup ∧
      types.Nodup ∧
      (∀ t : AssetType, t ∈ types ↔
        t ∈ (generateCompletePackage scoreEnv themeEnv gl brand_analysis results).assets.map
          (fun a => a.asset_type)) ∧
      ctx.deployment_checklist = types.map assetTypeChecklistItem ++
        genericChecklistItems ctx.campaign_message := by
  have hcond : (pyTruthy gl.campaign_name || pyTruthy gl.campaign_goal ||
      pyTruthy gl.campaign_message) = true := by
    rcases h with h | h | h <;> simp [h]
  refine ⟨buildCampaignContext themeEnv gl
      (rescoreAll scoreEnv 0 (collectAssets results)),
    ((generateCompletePackage scoreEnv themeEnv gl brand_analysis results).assets.map
      (fun a => a.asset_type)).dedup, ?_, rfl, List.nodup_dedup _,
    fun t => List.mem_dedup, ?_⟩
  · show (if (pyTruthy gl.campaign_name || pyTruthy gl.campaign_goal ||
        pyTruthy gl.campaign_message) = true then
          some (buildCampaignContext themeEnv gl
            (rescoreAll scoreEnv 0 (collectAssets results)))
        else none) = _
    rw [if_pos hcond]
  · rfl

/-- Witness for `campaign_checklist_structure` on concrete guidelines
with a campaign name. -/
theorem campaign_checklist_structure_witness :
    pyTruthy glCampaign.campaign_name = true ∧
    ((generateCompletePackage scoreEnvErr themeEnvErr glCampaign "analysis"
      [Except.ok pkgOneCategory]).campaign).isSome = true := by
  refine ⟨by decide, ?_⟩
  obtain ⟨ctx, types, hctx, -, -, -, -⟩ :=
    campaign_checklist_structure scoreEnvErr themeEnvErr glCampaign "analysis"
      [Except.ok pkgOneCategory] (Or.inl (by decide))
  rw [hctx]
  rfl

/-- The category event list has one event per category. -/
theorem categoryEvents_length (total_steps : Nat) :
    ∀ (cats : List (String × String)) (start : Nat),
      (categoryEvents total_steps start cats).length = cats.length := by
  intro cats
  induction cats with
  | nil => intro start; rfl
  | cons c rest ih =>
    intro start
    simp only [categoryEvents, List.length_cons]
    rw [ih (start + 1)]

/-- Shape of the category event at index `idx` when the running index
starts at `start`. -/
theorem categoryEvents_getElem (total_steps : Nat) :
    ∀ (cats : List (String × String)) (start idx : Nat), idx < cats.length →
      ∃ msg, (categoryEvents total_steps start cats)[idx]? = some
        { step := start + idx + 2, total := total_steps,
          percentage := (1 + (start + idx)) * 100 / total_steps, message := msg } := by
  intro cats
  induction cats with
  | nil => intro start idx h; simp at h
  | cons c rest ih =>
    intro start idx h
    cases idx with
    | zero =>
      refine ⟨c.2, ?_⟩
      simp [categoryEvents]
    | succ i =>
      have h' : i < rest.length := by
        simp only [List.length_cons] at h
        omega
      obtain ⟨msg, hmsg⟩ := ih (start + 1) i h'
      refine ⟨msg, ?_⟩
      simp only [categoryEvents, List.getElem?_cons_succ]
      rw [hmsg]
      have e1 : start + 1 + i = start + (i + 1) := by omega
      rw [e1]

/-- C4 (amended): the initial progress event and every per-category
progress event report `floor(completed_steps × 100 / total_steps)`
computed before the announced step starts, with
`total_steps = |categories| + 1`; the scoring event instead reports the
constant 90 (with total `total_steps + 1`), and the finalization event
the constant 100. -/
theorem progress_percentages (categories : List (String × String)) :
    (progressEvents categories)[0]? = some
      { step := 1, total := categories.length + 1, percentage := 0 * 100 / (categories.length + 1),
        message := "Analyzing brand identity" } ∧
    (∀ idx, idx < categories.length →
      ∃ msg, (progressEvents categories)[idx + 1]? = some
        { step := idx + 2, total := categories.length + 1,
          percentage := (1 + idx) * 100 / (categories.length + 1), message := msg }) ∧
    (progressEvents categories)[categories.length + 1]? = some
      { step := categories.length + 1, total := categories.length + 2, percentage := 90,
        message := "Scoring brand consistency" } ∧
    (progressEvents categories)[categories.length + 2]? = some
      { step := categories.length + 2, total := categories.length + 2, percentage := 100,
        message := "Finalizing assets" } := by
  refine ⟨?_, ?_, ?_, ?_⟩
  · simp [progressEvents]
  · intro idx h
    obtain ⟨msg, hmsg⟩ := categoryEvents_getElem (categories.length + 1) categories 0 idx h
    refine ⟨msg, ?_⟩
    have hlen : idx < (categoryEvents (categories.length + 1) 0 categories).length := by
      rw [categoryEvents_length]
      exact h
    simp only [progressEvents, List.cons_append, List.getElem?_cons_succ]
    rw [List.getElem?_append_left hlen, hmsg]
    norm_num
  · simp only [progressEvents, List.cons_append, List.getElem?_cons_succ]
    rw [List.getElem?_append_right (by rw [categoryEvents_length])]
    rw [categoryEvents_length]
    simp
  · simp only [progressEvents, List.cons_append, List.getElem?_cons_succ]
    rw [List.getElem?_append_right (by rw [categoryEvents_length]; omega)]
    rw [categoryEvents_length]
    simp

/-- Witness for `progress_percentages` on the five standard categories:
the first category event reports floor(1 × 100 / 6) = 16. -/
theorem progress_percentages_witness :
    ∃ msg, (progressEvents allFiveCategories)[1]? = some
      { step := 2, total := 6, percentage := 16, message := msg } := by
  obtain ⟨msg, hmsg⟩ := (progress_percentages allFiveCategories).2.1 0 (by decide)
  exact ⟨msg, hmsg⟩

/-- C4 counterexample: with all five categories enabled, six steps are
complete before the scoring event, yet that event's percentage is the
hardcoded 90 — neither floor(6 × 100 / 7) = 85 (with the event's own
total of 7) nor floor(6 × 100 / 6) = 100 (with the category events'
total of 6). -/
theorem scoring_event_breaks_percentage_contract :
    (completedStepsBefore allFiveCategories).getD 6 0 = 6 ∧
    ((progressEvents allFiveCategories).getD 6 default).message =
      "Scoring brand consistency" ∧
    ((progressEvents allFiveCategories).getD 6 default).percentage = 90 ∧
    ((progressEvents allFiveCategories).getD 6 default).total = 7 ∧
    90 ≠ 6 * 100 / 7 ∧ 90 ≠ 6 * 100 / 6 := by
  decide

end BrandAssetGen
